import Mathlib

/-!
A shallow embedding of the metadata synchronization core of
`src/backend/scripts/airplay-control-script.py` (classes `MetadataStore`,
`MetadataParser`, and the notification path of `SnapcastControlScript`).

Modelling conventions:
* Python `None`-able string fields become `Option String`; Python truthiness of
  such a field is `pyTruthy`.
* Each call to `MetadataStore.update(**kwargs)` is one atomic, lock-protected
  mutation of the store.  We model one call as a `StoreUpdate` record (a field
  is `some v` exactly when the corresponding kwarg was passed, where `v` itself
  is the optional string passed, so `some none` models an explicit
  `field=None` kwarg).  `MetadataParser.parse_item` is modelled as a function
  returning the list of `StoreUpdate` calls it issues, in order; the store
  visible to a concurrent reader after any prefix of those calls is
  `applyUpdates st (ops.take k)`.  Every `update` call also stamps
  `last_updated`, so "the store is not mutated" is modelled as "the list of
  issued update calls is empty".
* Wall-clock time (`time.time()`) and the artwork cache directory contents are
  environment inputs (`Env`).
* The base64/UTF-8 decoding of a record's payload
  (`base64.b64decode(data_text).decode('utf-8', errors='ignore')`, with the
  surrounding try/except yielding `""` on failure) is a pure library call on
  opaque data; its result is carried as the `dataDecoded` field of `XmlItem`
  and is used by `parse_item` only under the source's guard
  `encoding == "base64" and data_text and code != "PICT"`.
* `xml.etree.ElementTree.fromstring` failing (`ET.ParseError`) is modelled by
  the input `Option XmlItem` being `none`; a missing `<type>`/`<code>`/`<data>`
  element is a `none`/default field of `XmlItem`.  `bytes.fromhex` followed by
  `.decode('ascii', errors='ignore')` is `hexToAscii?` (failure = the
  `ValueError` that the source catches).  Python `str.strip()`, `str.split()`
  and `int()` are given structural char-list implementations (`pyStrip`,
  `pySplit`, `pyInt?`) so that concrete runs evaluate inside the kernel.
* `time.time()` float timestamps are modelled as `Int` values on an arbitrary
  seconds scale: the grace-window comparison `now - last > 2.0` only uses the
  ordered additive structure of time, and all concrete scenarios in the spec
  use whole seconds.
-/

/-- Python `str.isspace` characters relevant to `str.strip()`. -/
def isPySpace (c : Char) : Bool :=
  c == ' ' || c == '\t' || c == '\n' || c == '\r' || c == '\x0b' || c == '\x0c'

/-- Python `str.strip()`: drop leading and trailing whitespace. -/
def pyStrip (s : String) : String :=
  String.mk (((s.data.dropWhile isPySpace).reverse.dropWhile isPySpace).reverse)

/-- Python `s.startswith(p)`. -/
def strStarts (s p : String) : Bool := p.data.isPrefixOf s.data

/-- Python `s.endswith(p)`. -/
def strEnds (s p : String) : Bool := p.data.reverse.isPrefixOf s.data.reverse

/-- Python `s.split(sep)` for a one-character separator, on char lists. -/
def splitOnChar (sep : Char) : List Char → List (List Char)
  | [] => [[]]
  | c :: rest =>
      let r := splitOnChar sep rest
      if c == sep then [] :: r
      else match r with
        | h :: t => (c :: h) :: t
        | [] => [[c]]

/-- Python `s.split("/")`. -/
def pySplit (sep : Char) (s : String) : List String :=
  (splitOnChar sep s.data).map String.mk

/-- Decimal digit value. -/
def digitVal? (c : Char) : Option Nat :=
  if '0' ≤ c ∧ c ≤ '9' then some (c.toNat - '0'.toNat) else none

/-- Value of a nonempty all-digit char list. -/
def natDigits? (cs : List Char) : Option Nat :=
  match cs with
  | [] => none
  | _ =>
      cs.foldl (fun acc c => do
        let a ← acc
        let d ← digitVal? c
        pure (10 * a + d)) (some 0)

/-- Python `int(s)`: optional surrounding whitespace, optional sign, decimal
digits; `none` models the `ValueError` the source catches. -/
def pyInt? (s : String) : Option Int :=
  let cs := (s.data.dropWhile isPySpace).reverse.dropWhile isPySpace |>.reverse
  match cs with
  | '-' :: rest => (natDigits? rest).map fun n => -(n : Int)
  | '+' :: rest => (natDigits? rest).map fun n => (n : Int)
  | rest => (natDigits? rest).map fun n => (n : Int)

/-- Python truthiness of an optional string (`None` and `""` are falsy). -/
def pyTruthy : Option String → Bool
  | none => false
  | some s => !(s == "")

/-- Value of a single hex digit, `none` if the character is not a hex digit. -/
def hexDigit? (c : Char) : Option Nat :=
  if '0' ≤ c ∧ c ≤ '9' then some (c.toNat - '0'.toNat)
  else if 'a' ≤ c ∧ c ≤ 'f' then some (c.toNat - 'a'.toNat + 10)
  else if 'A' ≤ c ∧ c ≤ 'F' then some (c.toNat - 'A'.toNat + 10)
  else none

/-- Python `bytes.fromhex`: pairs of hex digits to byte values; `none` models the
`ValueError` raised on an odd-length or non-hex string. -/
def hexPairs : List Char → Option (List Nat)
  | [] => some []
  | [_] => none
  | a :: b :: rest => do
      let ha ← hexDigit? a
      let hb ← hexDigit? b
      let r ← hexPairs rest
      pure ((16 * ha + hb) :: r)

/-- Python `bytes.decode('ascii', errors='ignore')`: keep bytes below 128, drop the rest. -/
def asciiIgnore (bs : List Nat) : String :=
  String.mk (bs.filterMap fun b => if b < 128 then some (Char.ofNat b) else none)

/-- Python `bytes.fromhex(s).decode('ascii', errors='ignore')`; `none` models the
exception path that makes `parse_item` drop the record. -/
def hexToAscii? (s : String) : Option String :=
  (hexPairs s.data).map asciiIgnore

/-- The base64 alphabet, for encoding cached artwork bytes into a data URL. -/
def b64Alphabet : List Char :=
  "ABCDEFGHIJKLMNOPQRSTUVWXYZabcdefghijklmnopqrstuvwxyz0123456789+/".data

/-- Character of one sextet. -/
def b64Char (n : Nat) : Char := b64Alphabet.getD n 'A'

/-- Python `base64.b64encode` on a byte list (bytes are `Nat`s below 256). -/
def base64Encode : List Nat → String
  | [] => ""
  | [a] => String.mk [b64Char (a / 4), b64Char (a % 4 * 16), '=', '=']
  | [a, b] => String.mk [b64Char (a / 4), b64Char (a % 4 * 16 + b / 16), b64Char (b % 16 * 4), '=']
  | a :: b :: c :: rest =>
      String.mk [b64Char (a / 4), b64Char (a % 4 * 16 + b / 16),
                 b64Char (b % 16 * 4 + c / 64), b64Char (c % 64)] ++ base64Encode rest

/-- The data held by `MetadataStore.data` (the published snapshot).
`last_updated` is omitted: it is stamped by every `update` call, so "no
mutation" is expressed as "no update call was issued" (an empty op list). -/
structure StoreData where
  title : Option String := none
  artist : Option String := none
  album : Option String := none
  track_id : Option String := none
  artwork_url : Option String := none
  playback_status : String := "Stopped"
  duration : Option Int := none
  position : Int := 0
deriving DecidableEq, Repr

/-- One atomic `MetadataStore.update(**kwargs)` call: a field is `some v` iff
the kwarg was passed (for the optional-string fields, `some none` is an
explicit `field=None` kwarg). -/
structure StoreUpdate where
  title : Option (Option String) := none
  artist : Option (Option String) := none
  album : Option (Option String) := none
  track_id : Option (Option String) := none
  artwork_url : Option (Option String) := none
  playback_status : Option String := none
  duration : Option Int := none
  position : Option Int := none
deriving DecidableEq, Repr

/-- Source `MetadataStore.update`: `self.data.update(kwargs)` under the lock. -/
def store_update (st : StoreData) (u : StoreUpdate) : StoreData :=
  { title := u.title.getD st.title
    artist := u.artist.getD st.artist
    album := u.album.getD st.album
    track_id := u.track_id.getD st.track_id
    artwork_url := u.artwork_url.getD st.artwork_url
    playback_status := u.playback_status.getD st.playback_status
    duration := match u.duration with | some d => some d | none => st.duration
    position := u.position.getD st.position }

/-- The store state after a sequence of atomic update calls. -/
def applyUpdates (st : StoreData) (ops : List StoreUpdate) : StoreData :=
  ops.foldl store_update st

/-- The metadata object `MetadataStore.get_metadata_for_snapcast` builds
(`None` when the store has no truthy title). -/
structure SnapMeta where
  title : String
  artist : List String := []
  album : Option String := none
  artUrl : Option String := none
  duration : Option Int := none
deriving DecidableEq, Repr

/-- Source `MetadataStore.get_metadata_for_snapcast`: only returns an object when the
snapshot holds a truthy title; duration is included only when truthy (nonzero). -/
def get_metadata_for_snapcast (st : StoreData) : Option SnapMeta :=
  if pyTruthy st.title then
    some { title := st.title.getD ""
           artist := if pyTruthy st.artist then [st.artist.getD ""] else []
           album := if pyTruthy st.album then st.album else none
           artUrl := if pyTruthy st.artwork_url then st.artwork_url else none
           duration := match st.duration with
             | some d => if d ≠ 0 then some d else none
             | none => none }
  else none

/-- A file in the shairport-sync cover-art cache directory (its name, its
modification time, and its raw bytes). -/
structure CacheFile where
  name : String
  mtime : Int
  data : List Nat
deriving DecidableEq, Repr

/-- Environment of one `parse_item` call: the wall clock (`time.time()`) and
the contents of the artwork cache directory (empty list = missing/empty dir). -/
structure Env where
  now : Int := 0
  cacheFiles : List CacheFile := []
deriving DecidableEq, Repr

/-- The mutable state of a `MetadataParser` instance. -/
structure ParserState where
  curTitle : Option String := none
  curArtist : Option String := none
  curAlbum : Option String := none
  curTrackId : Option String := none
  pendTitle : Option String := none
  pendArtist : Option String := none
  pendAlbum : Option String := none
  pendingCoverData : List String := []
  lastArtworkLoadTime : Int := 0
  lastLoadedCacheFile : Option String := none
  inMetadataBundle : Bool := false
  inArtworkBundle : Bool := false
deriving DecidableEq, Repr

/-- Membership in `glob("cover-*.jpg")`. -/
def isCoverJpg (n : String) : Bool := strStarts n "cover-" && strEnds n ".jpg"

/-- Membership in `glob("cover-*.png")`. -/
def isCoverPng (n : String) : Bool := strStarts n "cover-" && strEnds n ".png"

/-- The list `list(glob("cover-*.jpg")) + list(glob("cover-*.png"))`. -/
def coverFiles (files : List CacheFile) : List CacheFile :=
  files.filter (fun f => isCoverJpg f.name) ++ files.filter (fun f => isCoverPng f.name)

/-- Python `max(cover_files, key=mtime)`: the first file with maximal mtime. -/
def newestFile : List CacheFile → Option CacheFile
  | [] => none
  | f :: rest => some (rest.foldl (fun best g => if g.mtime > best.mtime then g else best) f)

/-- Python `mimetypes.guess_type(...)[0] or 'image/jpeg'` for the cache file names. -/
def mimeOf (n : String) : String := if strEnds n ".png" then "image/png" else "image/jpeg"

/-- The `data:` URL built from a cache file. -/
def dataUrlOf (f : CacheFile) : String :=
  "data:" ++ mimeOf f.name ++ ";base64," ++ base64Encode f.data

/-- Source `MetadataParser._load_artwork_from_cache`: pick the newest cover file,
skip it if its name equals `last_loaded_cache_file` (dedup), else read and
encode it.  Returns the data URL together with the file name recorded into
`last_loaded_cache_file`; `none` models every `return None` path (missing
directory, no cover files, dedup hit, read failure). -/
def load_artwork_from_cache (ps : ParserState) (files : List CacheFile) :
    Option (String × String) :=
  match newestFile (coverFiles files) with
  | none => none
  | some nf =>
      if ps.lastLoadedCacheFile == some nf.name then none
      else some (dataUrlOf nf, nf.name)

/-- One syntactically whole `<item>` record as seen after XML parsing.
`dataText` is the stripped text of the `<data>` element (`""` when absent),
`dataDecoded` the result of the base64+UTF-8 decoding library call on
`dataText` (`""` when that call raises). -/
structure XmlItem where
  typeText : Option String := none
  codeText : Option String := none
  dataEncoding : String := ""
  dataText : String := ""
  dataDecoded : String := ""
deriving DecidableEq, Repr

/-- The hex decoding of `<type>`/`<code>` at the top of `parse_item`:
a missing `<code>` returns early, a missing `<type>` yields `item_type = ""`,
and a `ValueError` from `bytes.fromhex` on either is caught and drops the
record (`none`). -/
def decodeTypeCode (item : XmlItem) : Option (String × String) :=
  match item.codeText with
  | none => none
  | some codeHex =>
      match (match item.typeText with
             | none => some ""
             | some t => hexToAscii? t),
            hexToAscii? codeHex with
      | some itemType, some code => some (itemType, code)
      | _, _ => none

/-- Result of one `parse_item` call: the new parser state, the list of atomic
`MetadataStore.update` calls issued (in order), and the returned `bool`
("store was updated, Snapcast notification needed"). -/
abbrev ParseRes := ParserState × List StoreUpdate × Bool

/-- The `mdst` handler: open the metadata bundle and clear the pending fields. -/
def mdstStep (ps : ParserState) : ParseRes :=
  ({ ps with inMetadataBundle := true,
             pendTitle := none, pendArtist := none, pendAlbum := none }, [], false)

/-- The `mden` handler: close the bundle, apply each truthy pending field to
`current` and to the store (one `store.update` call per field), then read the
playback status back from the store and force it to `"Playing"` if needed.
Note the pending fields themselves are left in place. -/
def mdenStep (ps : ParserState) (st : StoreData) : ParseRes :=
  let t := pyTruthy ps.pendTitle
  let a := pyTruthy ps.pendArtist
  let b := pyTruthy ps.pendAlbum
  let ps' := { ps with
    inMetadataBundle := false
    curTitle := if t then ps.pendTitle else ps.curTitle
    curArtist := if a then ps.pendArtist else ps.curArtist
    curAlbum := if b then ps.pendAlbum else ps.curAlbum }
  let fieldOps : List StoreUpdate :=
    (if t then [{ title := some ps.pendTitle }] else []) ++
    (if a then [{ artist := some ps.pendArtist }] else []) ++
    (if b then [{ album := some ps.pendAlbum }] else [])
  let stMid := applyUpdates st fieldOps
  let needPlaying := stMid.playback_status != "Playing"
  let ops := fieldOps ++ (if needPlaying then [{ playback_status := some "Playing" }] else [])
  (ps', ops, t || a || b || needPlaying)

/-- The common shape of the `pbeg`/`pend`/`paus`/`pfls`/`prsm` handlers: read
the playback status from the store and update it when it differs. -/
def setPlaybackStep (ps : ParserState) (st : StoreData) (target : String) : ParseRes :=
  if st.playback_status == target then (ps, [], false)
  else (ps, [{ playback_status := some target }], true)

/-- Truncation toward zero, as Python `int()` applied to a quotient. -/
def intTrunc (q : Rat) : Int := if 0 ≤ q then q.floor else -(-q).floor

/-- RTP frame difference to milliseconds: `int(((b - a) / 44100.0) * 1000)`
(exact rational arithmetic stands in for the source's float arithmetic). -/
def rtpToMs (a b : Int) : Int := intTrunc ((((b - a : Int) : Rat)) / 44100 * 1000)

/-- The `prgr` handler: parse `"start/current/end"` and push duration and position
in one `store.update` call; any parse failure is caught and drops the record. -/
def prgrStep (ps : ParserState) (dataText : String) : ParseRes :=
  if dataText == "" then (ps, [], false)
  else
    match pySplit '/' dataText with
    | [p0, p1, p2] =>
        match pyInt? p0, pyInt? p1, pyInt? p2 with
        | some s, some c, some e =>
            (ps, [{ duration := some (rtpToMs s e), position := some (rtpToMs s c) }], true)
        | _, _, _ => (ps, [], false)
    | _ => (ps, [], false)

/-- The `pcst` handler: open the artwork bundle and reset the chunk accumulator. -/
def pcstStep (ps : ParserState) : ParseRes :=
  ({ ps with inArtworkBundle := true, pendingCoverData := [] }, [], false)

/-- The `pcen` handler: close the artwork bundle and resolve artwork from the
cache; on a fresh load record the load time and push the URL to the store. -/
def pcenStep (env : Env) (ps : ParserState) : ParseRes :=
  let ps1 := { ps with inArtworkBundle := false }
  match load_artwork_from_cache ps1 env.cacheFiles with
  | some (url, nm) =>
      let ps2 := { ps1 with lastLoadedCacheFile := some nm }
      if url == "" then (ps2, [], false)
      else ({ ps2 with lastArtworkLoadTime := env.now },
            [{ artwork_url := some (some url) }], true)
  | none => (ps1, [], false)

/-- The `PICT` handler: accumulate a base64 artwork chunk (unused when caching). -/
def pictStep (ps : ParserState) (encoding dataText : String) : ParseRes :=
  if encoding == "base64" && dataText != "" then
    ({ ps with pendingCoverData := ps.pendingCoverData ++ [dataText] }, [], false)
  else (ps, [], false)

/-- The `mper` handler: a truthy decoded persistent id either signals a track
change (replace `current`, reset the artwork dedup name, and issue one
`store.update` clearing title/artist/album and adopting the new id — clearing
artwork too only when the last artwork load is more than 2 seconds old), or is
adopted in place with no invalidation and no notification. -/
def mperStep (env : Env) (ps : ParserState) (decoded : String) : ParseRes :=
  if decoded == "" then (ps, [], false)
  else
    let track_id := pyStrip decoded
    if track_id == "" then (ps, [], false)
    else
      if pyTruthy ps.curTrackId && !(ps.curTrackId == some track_id) then
        let ps' := { ps with
          curTitle := none, curArtist := none, curAlbum := none,
          curTrackId := some track_id, lastLoadedCacheFile := none }
        if env.now - ps.lastArtworkLoadTime > 2 then
          (ps', [{ title := some none, artist := some none, album := some none,
                   track_id := some (some track_id), artwork_url := some none }], true)
        else
          (ps', [{ title := some none, artist := some none, album := some none,
                   track_id := some (some track_id) }], true)
      else
        ({ ps with curTrackId := some track_id },
         [{ track_id := some (some track_id) }], false)

/-- The `minm` handler: a truthy stripped payload is accumulated while a bundle is
open, or written to the store immediately (with notification) outside one. -/
def titleStep (ps : ParserState) (decoded : String) : ParseRes :=
  let v := pyStrip decoded
  if v == "" then (ps, [], false)
  else if ps.inMetadataBundle then ({ ps with pendTitle := some v }, [], false)
  else ({ ps with curTitle := some v }, [{ title := some (some v) }], true)

/-- The `asar` handler: as `titleStep`, for the artist field. -/
def artistStep (ps : ParserState) (decoded : String) : ParseRes :=
  let v := pyStrip decoded
  if v == "" then (ps, [], false)
  else if ps.inMetadataBundle then ({ ps with pendArtist := some v }, [], false)
  else ({ ps with curArtist := some v }, [{ artist := some (some v) }], true)

/-- The `asal` handler: as `titleStep`, for the album field. -/
def albumStep (ps : ParserState) (decoded : String) : ParseRes :=
  let v := pyStrip decoded
  if v == "" then (ps, [], false)
  else if ps.inMetadataBundle then ({ ps with pendAlbum := some v }, [], false)
  else ({ ps with curAlbum := some v }, [{ album := some (some v) }], true)

/-- Source `MetadataParser.parse_item`.  The input is `none` when
`ET.fromstring` raises (truncated/malformed XML).  Every exception path of the
source returns `false` with no state change; unrecognized types/codes fall
through to the final `return False`. -/
def parse_item (env : Env) (ps : ParserState) (st : StoreData)
    (item? : Option XmlItem) : ParseRes :=
  match item? with
  | none => (ps, [], false)
  | some item =>
      match decodeTypeCode item with
      | none => (ps, [], false)
      | some (itemType, code) =>
          let decoded :=
            if item.dataEncoding == "base64" && item.dataText != "" && code != "PICT"
            then item.dataDecoded else ""
          if itemType == "ssnc" then
            if code == "mdst" then mdstStep ps
            else if code == "mden" then mdenStep ps st
            else if code == "pbeg" then setPlaybackStep ps st "Playing"
            else if code == "pend" then setPlaybackStep ps st "Stopped"
            else if code == "prgr" then prgrStep ps item.dataText
            else if code == "paus" then setPlaybackStep ps st "Paused"
            else if code == "pfls" then setPlaybackStep ps st "Paused"
            else if code == "prsm" then setPlaybackStep ps st "Playing"
            else if code == "pvol" then (ps, [], false)
            else if code == "pcst" then pcstStep ps
            else if code == "pcen" then pcenStep env ps
            else if code == "PICT" then pictStep ps item.dataEncoding item.dataText
            else (ps, [], false)
          else if itemType == "core" then
            if code == "mper" then mperStep env ps decoded
            else if code == "minm" then titleStep ps decoded
            else if code == "asar" then artistStep ps decoded
            else if code == "asal" then albumStep ps decoded
            else (ps, [], false)
          else (ps, [], false)

/-- A record whose decode phase yields no event: unparseable XML, a missing
`<code>` element, or invalid hex in the type/code fields. -/
def isMalformed : Option XmlItem → Bool
  | none => true
  | some item => (decodeTypeCode item).isNone

/-- Combined state of the pipe-monitoring path: the parser and the store. -/
structure SysState where
  ps : ParserState := {}
  st : StoreData := {}
deriving DecidableEq, Repr

/-- Source `SnapcastControlScript.send_metadata_update`: a
`Plugin.Stream.Player.Properties` notification is pushed only when
`get_metadata_for_snapcast` yields an object (i.e. the snapshot has a truthy
title); the list is the metadata objects actually sent. -/
def sendMetadataUpdate (st : StoreData) : List SnapMeta :=
  match get_metadata_for_snapcast st with
  | some m => [m]
  | none => []

/-- One iteration of `monitor_metadata_pipe` on a complete item: run
`parse_item`, and call `send_metadata_update` when it returned `True`. -/
def processItem (env : Env) (s : SysState) (item? : Option XmlItem) :
    SysState × List SnapMeta :=
  let r := parse_item env s.ps s.st item?
  let st' := applyUpdates s.st r.2.1
  (⟨r.1, st'⟩, if r.2.2 then sendMetadataUpdate st' else [])

/-- Processing a sequence of complete items, collecting every downstream
notification in order. -/
def processTrace (s : SysState) : List (Env × Option XmlItem) → SysState × List SnapMeta
  | [] => (s, [])
  | (env, it) :: rest =>
      let r1 := processItem env s it
      let r2 := processTrace r1.1 rest
      (r2.1, r1.2 ++ r2.2)

/-- An `ssnc` item with the given hex-encoded code and no payload. -/
def ssncItem (codeHex : String) : XmlItem :=
  { typeText := some "73736e63", codeText := some codeHex }

/-- The metadata bundle-start record (`ssnc`/`mdst`). -/
def mdstItem : XmlItem := ssncItem "6d647374"

/-- The metadata bundle-end record (`ssnc`/`mden`). -/
def mdenItem : XmlItem := ssncItem "6d64656e"

/-- The artwork bundle-end record (`ssnc`/`pcen`). -/
def pcenItem : XmlItem := ssncItem "7063656e"

/-- A `core` item with the given hex-encoded code and a base64 payload whose
library decoding is `dec`. -/
def coreItem (codeHex b64 dec : String) : XmlItem :=
  { typeText := some "636f7265", codeText := some codeHex,
    dataEncoding := "base64", dataText := b64, dataDecoded := dec }

/-- A persistent-track-id record (`core`/`mper`). -/
def mperItem (b64 dec : String) : XmlItem := coreItem "6d706572" b64 dec

/-- A title record (`core`/`minm`). -/
def minmItem (b64 dec : String) : XmlItem := coreItem "6d696e6d" b64 dec

/-- An artist record (`core`/`asar`). -/
def asarItem (b64 dec : String) : XmlItem := coreItem "61736172" b64 dec

/-- An album record (`core`/`asal`). -/
def asalItem (b64 dec : String) : XmlItem := coreItem "6173616c" b64 dec

theorem parse_mden (env : Env) (ps : ParserState) (st : StoreData) :
    parse_item env ps st (some mdenItem) = mdenStep ps st := rfl

theorem parse_mdst (env : Env) (ps : ParserState) (st : StoreData) :
    parse_item env ps st (some mdstItem) = mdstStep ps := rfl

theorem parse_pcen (env : Env) (ps : ParserState) (st : StoreData) :
    parse_item env ps st (some pcenItem) = pcenStep env ps := rfl

theorem parse_mper (env : Env) (ps : ParserState) (st : StoreData) (b64 dec : String)
    (hb : (b64 == "") = false) :
    parse_item env ps st (some (mperItem b64 dec)) = mperStep env ps dec := by
  have h1 : decodeTypeCode (mperItem b64 dec) = some ("core", "mper") := rfl
  have hb' : ¬ b64 = "" := by simpa using hb
  simp only [parse_item, h1]
  simp [mperItem, coreItem, hb']

theorem parse_minm (env : Env) (ps : ParserState) (st : StoreData) (b64 dec : String) :
    parse_item env ps st (some (minmItem b64 dec)) =
      titleStep ps (if b64 == "" then "" else dec) := by
  have h1 : decodeTypeCode (minmItem b64 dec) = some ("core", "minm") := rfl
  simp only [parse_item, h1]
  by_cases hb : b64 = ""
  · subst hb; simp [minmItem, coreItem]
  · simp [minmItem, coreItem, hb]

theorem parse_asar (env : Env) (ps : ParserState) (st : StoreData) (b64 dec : String) :
    parse_item env ps st (some (asarItem b64 dec)) =
      artistStep ps (if b64 == "" then "" else dec) := by
  have h1 : decodeTypeCode (asarItem b64 dec) = some ("core", "asar") := rfl
  simp only [parse_item, h1]
  by_cases hb : b64 = ""
  · subst hb; simp [asarItem, coreItem]
  · simp [asarItem, coreItem, hb]

theorem parse_asal (env : Env) (ps : ParserState) (st : StoreData) (b64 dec : String) :
    parse_item env ps st (some (asalItem b64 dec)) =
      albumStep ps (if b64 == "" then "" else dec) := by
  have h1 : decodeTypeCode (asalItem b64 dec) = some ("core", "asal") := rfl
  simp only [parse_item, h1]
  by_cases hb : b64 = ""
  · subst hb; simp [asalItem, coreItem]
  · simp [asalItem, coreItem, hb]

/-- C1: the claim states that at bundle-end every accumulated field is merged
into the published snapshot "in one atomic update call", so no read can see a
partial mixture.  The `mden` handler instead issues one `store.update` call
per accumulated field: with a title and an artist pending (and playback
already `Playing`), it issues two separate atomic calls, and the store state
after only the first call pairs the new title with the still-old artist — a
partial mixture visible to any reader that takes the store lock between the
two calls.  This contradicts the handler's own "ATOMIC APPLICATION" / "apply
all pending metadata at once" comments. -/
theorem c1_bundle_flush_is_not_one_atomic_call :
    (parse_item {} { pendTitle := some "NT", pendArtist := some "NA", inMetadataBundle := true }
        { title := some "OT", artist := some "OA", playback_status := "Playing" }
        (some mdenItem)).2.1.length = 2 ∧
    (applyUpdates { title := some "OT", artist := some "OA", playback_status := "Playing" }
        ((parse_item {} { pendTitle := some "NT", pendArtist := some "NA", inMetadataBundle := true }
          { title := some "OT", artist := some "OA", playback_status := "Playing" }
          (some mdenItem)).2.1.take 1)).title = some "NT" ∧
    (applyUpdates { title := some "OT", artist := some "OA", playback_status := "Playing" }
        ((parse_item {} { pendTitle := some "NT", pendArtist := some "NA", inMetadataBundle := true }
          { title := some "OT", artist := some "OA", playback_status := "Playing" }
          (some mdenItem)).2.1.take 1)).artist = some "OA" := by decide

/-- C5 as stated is false: a bundle-end with nothing accumulated still mutates
the store and still notifies whenever the playback status is not already
`Playing`.  Concretely, after an immediate title and a bundle-start (playback
status still `"Stopped"`), an empty bundle-end issues a
`playback_status="Playing"` update call, returns `True`, and a notification is
sent. -/
theorem c5_counterexample :
    (parse_item {} (processTrace {} [({}, some (minmItem "WA==" "X")), ({}, some mdstItem)]).1.ps
        (processTrace {} [({}, some (minmItem "WA==" "X")), ({}, some mdstItem)]).1.st
        (some mdenItem)).2.1 ≠ [] ∧
    (parse_item {} (processTrace {} [({}, some (minmItem "WA==" "X")), ({}, some mdstItem)]).1.ps
        (processTrace {} [({}, some (minmItem "WA==" "X")), ({}, some mdstItem)]).1.st
        (some mdenItem)).2.2 = true ∧
    (processItem {} (processTrace {} [({}, some (minmItem "WA==" "X")), ({}, some mdstItem)]).1
        (some mdenItem)).2 ≠ [] ∧
    (processTrace {} [({}, some (minmItem "WA==" "X")), ({}, some mdstItem)]).1.st.playback_status
      = "Stopped" := by decide

/-- C5 amended: a bundle-end at which no field was accumulated performs no
store mutation and produces no downstream notification, provided the playback
status already reads `"Playing"` (otherwise the handler still forces the
status to `Playing` and signals an update). -/
theorem c5_empty_bundle_end_noop_when_playing (env : Env) (ps : ParserState) (st : StoreData)
    (h1 : pyTruthy ps.pendTitle = false) (h2 : pyTruthy ps.pendArtist = false)
    (h3 : pyTruthy ps.pendAlbum = false) (h4 : st.playback_status = "Playing") :
    parse_item env ps st (some mdenItem) = ({ ps with inMetadataBundle := false }, [], false) ∧
    (processItem env ⟨ps, st⟩ (some mdenItem)).2 = [] := by
  have hm := parse_mden env ps st
  have hstep : mdenStep ps st = ({ ps with inMetadataBundle := false }, [], false) := by
    simp [mdenStep, h1, h2, h3, applyUpdates, h4]
  refine ⟨hm.trans hstep, ?_⟩
  simp [processItem, hm, hstep]

/-- Witness for `c5_empty_bundle_end_noop_when_playing` at a concrete state. -/
theorem c5_empty_bundle_end_noop_when_playing_witness :
    parse_item {} ({ inMetadataBundle := true } : ParserState)
        ({ title := some "X", playback_status := "Playing" } : StoreData) (some mdenItem) =
      ({ inMetadataBundle := false }, [], false) ∧
    (processItem {} ⟨{ inMetadataBundle := true }, { title := some "X", playback_status := "Playing" }⟩
        (some mdenItem)).2 = [] :=
  c5_empty_bundle_end_noop_when_playing {} _ _ (by decide) (by decide) (by decide) rfl

/-- C6 as stated is false: after the bundle `mdst, minm "A", mden` has been
applied (one notification), processing a second `mden` for the very same,
unchanged values re-applies the still-pending title and produces a second
downstream notification — `mden` never clears the pending fields, and returns
`True` whenever any pending field is non-empty. -/
theorem c6_counterexample :
    (processTrace {} [({}, some mdstItem), ({}, some (minmItem "QQ==" "A")),
        ({}, some mdenItem)]).2.length = 1 ∧
    (processItem {} (processTrace {} [({}, some mdstItem), ({}, some (minmItem "QQ==" "A")),
        ({}, some mdenItem)]).1 (some mdenItem)).2 ≠ [] := by decide

/-- C6 amended: re-flushing an already-applied, unchanged bundle (a second
bundle-end while a pending field is still non-empty, as it always is after a
flush, since bundle-end does not clear the pending fields) re-applies the
pending values, returns `True`, and produces a second downstream
notification. -/
theorem sendMetadataUpdate_ne_nil (st : StoreData) :
    sendMetadataUpdate st ≠ [] ↔ pyTruthy st.title = true := by
  by_cases h : pyTruthy st.title <;> simp [sendMetadataUpdate, get_metadata_for_snapcast, h]

theorem mden_store_title (ps : ParserState) (st : StoreData)
    (h : pyTruthy ps.pendTitle = true) :
    (applyUpdates st (mdenStep ps st).2.1).title = ps.pendTitle := by
  simp only [mdenStep, h]
  by_cases ha : pyTruthy ps.pendArtist <;> by_cases hb : pyTruthy ps.pendAlbum <;>
    simp only [ha, hb, if_true, if_false, ite_true, ite_false] <;>
    split <;> simp [applyUpdates, store_update] <;>
    split <;> simp [store_update]

theorem c6_reflush_notifies_again (env : Env) (ps : ParserState) (st : StoreData)
    (h : pyTruthy ps.pendTitle = true) :
    (parse_item env ps st (some mdenItem)).2.2 = true ∧
    (processItem env ⟨ps, st⟩ (some mdenItem)).2 ≠ [] := by
  have hm := parse_mden env ps st
  have hupd : (mdenStep ps st).2.2 = true := by simp [mdenStep, h]
  refine ⟨by rw [hm]; exact hupd, ?_⟩
  simp only [processItem, hm, hupd, if_true]
  rw [sendMetadataUpdate_ne_nil, mden_store_title ps st h]
  exact h

/-- Witness for `c6_reflush_notifies_again` at a concrete state. -/
theorem c6_reflush_notifies_again_witness :
    (parse_item {} ({ pendTitle := some "A" } : ParserState) ({} : StoreData)
        (some mdenItem)).2.2 = true ∧
    (processItem {} ⟨{ pendTitle := some "A" }, {}⟩ (some mdenItem)).2 ≠ [] :=
  c6_reflush_notifies_again {} _ _ (by decide)

/-- C7: a title/artist/album record whose payload decodes (after stripping) to
the empty string is ignored: while a bundle is open — indeed in any state — it
leaves the parser state, the pending fields and the store untouched, issues no
update call and reports no update. -/
theorem c7_empty_field_event_ignored (env : Env) (ps : ParserState) (st : StoreData)
    (b64 d : String) (_hbundle : ps.inMetadataBundle = true) (hd : pyStrip d = "") :
    parse_item env ps st (some (minmItem b64 d)) = (ps, [], false) ∧
    parse_item env ps st (some (asarItem b64 d)) = (ps, [], false) ∧
    parse_item env ps st (some (asalItem b64 d)) = (ps, [], false) := by
  have he : pyStrip "" = "" := rfl
  refine ⟨?_, ?_, ?_⟩
  · rw [parse_minm]; split <;> simp [titleStep, hd, he]
  · rw [parse_asar]; split <;> simp [artistStep, hd, he]
  · rw [parse_asal]; split <;> simp [albumStep, hd, he]

/-- Witness for `c7_empty_field_event_ignored`: an empty base64 payload
decoding to whitespace, received mid-bundle with a value already pending. -/
theorem c7_empty_field_event_ignored_witness :
    parse_item {} ({ inMetadataBundle := true, pendTitle := some "Kept" } : ParserState)
        ({} : StoreData) (some (minmItem "IA==" " ")) =
      ({ inMetadataBundle := true, pendTitle := some "Kept" }, [], false) ∧
    parse_item {} ({ inMetadataBundle := true, pendTitle := some "Kept" } : ParserState)
        ({} : StoreData) (some (asarItem "IA==" " ")) =
      ({ inMetadataBundle := true, pendTitle := some "Kept" }, [], false) ∧
    parse_item {} ({ inMetadataBundle := true, pendTitle := some "Kept" } : ParserState)
        ({} : StoreData) (some (asalItem "IA==" " ")) =
      ({ inMetadataBundle := true, pendTitle := some "Kept" }, [], false) :=
  c7_empty_field_event_ignored {} _ _ "IA==" " " rfl (by decide)

/-- C10 as stated is false in its notification part: an artist record with a
non-empty payload arriving outside a bundle is written to the store
immediately and the parse step returns `True`, but because the snapshot holds
no truthy title, `send_metadata_update` builds no metadata object and no
downstream notification is emitted. -/
theorem c10_counterexample :
    (processItem {} {} (some (asarItem "Qg==" "B"))).1.st.artist = some "B" ∧
    (parse_item {} {} {} (some (asarItem "Qg==" "B"))).2.2 = true ∧
    (processItem {} {} (some (asarItem "Qg==" "B"))).2 = [] := by decide

/-- C10 amended: a title/artist/album record with a non-empty (stripped)
payload arriving while no bundle is open bypasses the pending fields and is
written to the store in one immediate update call, with the parse step
signalling an update; the downstream notification is actually emitted exactly
when the resulting snapshot holds a truthy title — always for a title record,
and for artist/album records only if a title is already present. -/
theorem c10_immediate_field_write (env : Env) (ps : ParserState) (st : StoreData)
    (b64 d v : String) (hbundle : ps.inMetadataBundle = false)
    (hv : pyStrip d = v) (hv0 : v ≠ "") (hb : b64 ≠ "") :
    parse_item env ps st (some (minmItem b64 d)) =
      ({ ps with curTitle := some v }, [{ title := some (some v) }], true) ∧
    (processItem env ⟨ps, st⟩ (some (minmItem b64 d))).2 ≠ [] ∧
    parse_item env ps st (some (asarItem b64 d)) =
      ({ ps with curArtist := some v }, [{ artist := some (some v) }], true) ∧
    ((processItem env ⟨ps, st⟩ (some (asarItem b64 d))).2 ≠ [] ↔ pyTruthy st.title = true) ∧
    parse_item env ps st (some (asalItem b64 d)) =
      ({ ps with curAlbum := some v }, [{ album := some (some v) }], true) ∧
    ((processItem env ⟨ps, st⟩ (some (asalItem b64 d))).2 ≠ [] ↔ pyTruthy st.title = true) := by
  have hb' : (b64 == "") = false := by simpa using hb
  have h1 : parse_item env ps st (some (minmItem b64 d)) =
      ({ ps with curTitle := some v }, [{ title := some (some v) }], true) := by
    rw [parse_minm]; simp [hb', titleStep, hv, hv0, hbundle]
  have h2 : parse_item env ps st (some (asarItem b64 d)) =
      ({ ps with curArtist := some v }, [{ artist := some (some v) }], true) := by
    rw [parse_asar]; simp [hb', artistStep, hv, hv0, hbundle]
  have h3 : parse_item env ps st (some (asalItem b64 d)) =
      ({ ps with curAlbum := some v }, [{ album := some (some v) }], true) := by
    rw [parse_asal]; simp [hb', albumStep, hv, hv0, hbundle]
  refine ⟨h1, ?_, h2, ?_, h3, ?_⟩
  · simp only [processItem, h1, if_true]
    rw [sendMetadataUpdate_ne_nil]
    simp [applyUpdates, store_update, pyTruthy, hv0]
  · simp only [processItem, h2, if_true]
    rw [sendMetadataUpdate_ne_nil]
    simp [applyUpdates, store_update]
  · simp only [processItem, h3, if_true]
    rw [sendMetadataUpdate_ne_nil]
    simp [applyUpdates, store_update]

/-- Witness for `c10_immediate_field_write` on concrete records outside a
bundle (store initially empty, so artist/album records notify `False`). -/
theorem c10_immediate_field_write_witness :
    parse_item {} ({} : ParserState) ({} : StoreData) (some (minmItem "Qg==" "B")) =
      ({ curTitle := some "B" }, [{ title := some (some "B") }], true) ∧
    (processItem {} ⟨{}, {}⟩ (some (minmItem "Qg==" "B"))).2 ≠ [] ∧
    parse_item {} ({} : ParserState) ({} : StoreData) (some (asarItem "Qg==" "B")) =
      ({ curArtist := some "B" }, [{ artist := some (some "B") }], true) ∧
    ((processItem {} ⟨{}, {}⟩ (some (asarItem "Qg==" "B"))).2 ≠ [] ↔
      pyTruthy (StoreData.title {}) = true) ∧
    parse_item {} ({} : ParserState) ({} : StoreData) (some (asalItem "Qg==" "B")) =
      ({ curAlbum := some "B" }, [{ album := some (some "B") }], true) ∧
    ((processItem {} ⟨{}, {}⟩ (some (asalItem "Qg==" "B"))).2 ≠ [] ↔
      pyTruthy (StoreData.title {}) = true) :=
  c10_immediate_field_write {} {} {} "Qg==" "B" "B" rfl (by decide) (by decide) (by decide)

theorem mperStep_change (env : Env) (ps : ParserState) (d t : String)
    (ht : pyStrip d = t) (ht0 : t ≠ "")
    (hcur : pyTruthy ps.curTrackId = true) (hne : ps.curTrackId ≠ some t) :
    mperStep env ps d =
      ({ ps with curTitle := none, curArtist := none, curAlbum := none,
                 curTrackId := some t, lastLoadedCacheFile := none },
       [if env.now - ps.lastArtworkLoadTime > 2 then
          { title := some none, artist := some none, album := some none,
            track_id := some (some t), artwork_url := some none }
        else
          { title := some none, artist := some none, album := some none,
            track_id := some (some t) }], true) := by
  have hd : d ≠ "" := by
    intro h
    rw [h] at ht
    have he : pyStrip "" = "" := rfl
    rw [he] at ht
    exact ht0 ht.symm
  have hd0 : (d == "") = false := by simpa using hd
  have ht1 : (t == "") = false := by simpa using ht0
  have hne0 : (ps.curTrackId == some t) = false := by simpa using hne
  simp only [mperStep, hd0, ht, ht1, hcur, hne0, Bool.false_eq_true, if_false,
             Bool.not_false, Bool.and_self, if_true]
  by_cases hg : env.now - ps.lastArtworkLoadTime > 2 <;> simp [hg]

theorem mperStep_nochange (env : Env) (ps : ParserState) (d t : String)
    (ht : pyStrip d = t) (ht0 : t ≠ "")
    (h : ¬(pyTruthy ps.curTrackId = true ∧ ps.curTrackId ≠ some t)) :
    mperStep env ps d =
      ({ ps with curTrackId := some t }, [{ track_id := some (some t) }], false) := by
  have hd : d ≠ "" := by
    intro hh
    rw [hh] at ht
    have he : pyStrip "" = "" := rfl
    rw [he] at ht
    exact ht0 ht.symm
  have hd0 : (d == "") = false := by simpa using hd
  have ht1 : (t == "") = false := by simpa using ht0
  have hguard : (pyTruthy ps.curTrackId && !(ps.curTrackId == some t)) = false := by
    by_cases h1 : pyTruthy ps.curTrackId = true
    · have h2 : ps.curTrackId = some t := by
        by_contra h2
        exact h ⟨h1, h2⟩
      simp [h1, h2]
    · simp [Bool.not_eq_true] at h1
      simp [h1]
  simp [mperStep, hd0, ht, ht1, hguard]

/-- C2 as stated is false in its "no read ever observes the new track id with
the old track's fields" part: a title accumulated into the pending fields
while id `AAAA` was current is flushed by a later bundle-end after the id has
changed to `BBBB` — immediately after the change the snapshot is clean
(`title = None`, new id), but the very next bundle-end re-attaches the old
track's title to the new id. -/
theorem c2_counterexample :
    (processTrace {} [({}, some (mperItem "QUFBQQ==" "AAAA")), ({}, some mdstItem),
        ({}, some (minmItem "T2xkIFNvbmc=" "Old Song")),
        ({}, some (mperItem "QkJCQg==" "BBBB"))]).1.st.track_id = some "BBBB" ∧
    (processTrace {} [({}, some (mperItem "QUFBQQ==" "AAAA")), ({}, some mdstItem),
        ({}, some (minmItem "T2xkIFNvbmc=" "Old Song")),
        ({}, some (mperItem "QkJCQg==" "BBBB"))]).1.st.title = none ∧
    (processItem {} (processTrace {} [({}, some (mperItem "QUFBQQ==" "AAAA")), ({}, some mdstItem),
        ({}, some (minmItem "T2xkIFNvbmc=" "Old Song")),
        ({}, some (mperItem "QkJCQg==" "BBBB"))]).1 (some mdenItem)).1.st.title = some "Old Song" ∧
    (processItem {} (processTrace {} [({}, some (mperItem "QUFBQQ==" "AAAA")), ({}, some mdstItem),
        ({}, some (minmItem "T2xkIFNvbmc=" "Old Song")),
        ({}, some (mperItem "QkJCQg==" "BBBB"))]).1 (some mdenItem)).1.st.track_id
      = some "BBBB" := by decide

/-- C2 amended: every persistent-track-id record with a truthy id `t` leaves
the store's track id equal to `t` (the latest observed identity), and when
the id differs from the current truthy id, the handler issues exactly one
atomic update call that simultaneously clears title/artist/album and adopts
the new id — so at the track-change step itself no reader can see the new id
combined with the old fields.  (The global claim fails only through pending
bundle fields flushed later; see the counterexample.) -/
theorem c2_track_change_single_atomic_update (env : Env) (ps : ParserState) (st : StoreData)
    (b64 d t : String) (hb : b64 ≠ "") (ht : pyStrip d = t) (ht0 : t ≠ "") :
    (applyUpdates st (parse_item env ps st (some (mperItem b64 d))).2.1).track_id = some t ∧
    (pyTruthy ps.curTrackId = true → ps.curTrackId ≠ some t →
      (parse_item env ps st (some (mperItem b64 d))).2.1.length = 1 ∧
      ∀ u ∈ (parse_item env ps st (some (mperItem b64 d))).2.1,
        u.title = some none ∧ u.artist = some none ∧ u.album = some none ∧
        u.track_id = some (some t)) := by
  have hb' : (b64 == "") = false := by simpa using hb
  rw [parse_mper env ps st b64 d hb']
  by_cases hch : pyTruthy ps.curTrackId = true ∧ ps.curTrackId ≠ some t
  · rw [mperStep_change env ps d t ht ht0 hch.1 hch.2]
    refine ⟨?_, fun _ _ => ⟨rfl, ?_⟩⟩
    · by_cases hg : env.now - ps.lastArtworkLoadTime > 2 <;>
        simp [hg, applyUpdates, store_update]
    · intro u hu
      by_cases hg : env.now - ps.lastArtworkLoadTime > 2 <;>
        simp [hg] at hu <;> subst hu <;> simp
  · rw [mperStep_nochange env ps d t ht ht0 hch]
    refine ⟨by simp [applyUpdates, store_update], fun h1 h2 => absurd ⟨h1, h2⟩ hch⟩

/-- Witness for `c2_track_change_single_atomic_update` on a concrete track
change from `T1` to `T2`. -/
theorem c2_track_change_single_atomic_update_witness :
    (applyUpdates {} (parse_item {} ({ curTrackId := some "T1" } : ParserState) {}
        (some (mperItem "VDI=" "T2"))).2.1).track_id = some "T2" ∧
    (pyTruthy (some "T1") = true → (some "T1" : Option String) ≠ some "T2" →
      (parse_item {} ({ curTrackId := some "T1" } : ParserState) {}
          (some (mperItem "VDI=" "T2"))).2.1.length = 1 ∧
      ∀ u ∈ (parse_item {} ({ curTrackId := some "T1" } : ParserState) {}
          (some (mperItem "VDI=" "T2"))).2.1,
        u.title = some none ∧ u.artist = some none ∧ u.album = some none ∧
        u.track_id = some (some "T2")) :=
  c2_track_change_single_atomic_update {} { curTrackId := some "T1" } {} "VDI=" "T2" "T2"
    (by decide) rfl (by decide)

/-- C4: on a track change, the single update call clears the artwork
reference if and only if the last artwork load lies more than the fixed
2-second grace window before the change; within the window the artwork field
is left untouched by the call and so survives the change. -/
theorem c4_artwork_grace_window (env : Env) (ps : ParserState) (st : StoreData)
    (b64 d t : String) (hb : b64 ≠ "") (ht : pyStrip d = t) (ht0 : t ≠ "")
    (hcur : pyTruthy ps.curTrackId = true) (hne : ps.curTrackId ≠ some t) :
    ((∀ u ∈ (parse_item env ps st (some (mperItem b64 d))).2.1, u.artwork_url = some none) ↔
      env.now - ps.lastArtworkLoadTime > 2) ∧
    (applyUpdates st (parse_item env ps st (some (mperItem b64 d))).2.1).artwork_url =
      (if env.now - ps.lastArtworkLoadTime > 2 then none else st.artwork_url) := by
  have hb' : (b64 == "") = false := by simpa using hb
  rw [parse_mper env ps st b64 d hb', mperStep_change env ps d t ht ht0 hcur hne]
  by_cases hg : env.now - ps.lastArtworkLoadTime > 2 <;>
    simp [hg, applyUpdates, store_update]

/-- Witness for `c4_artwork_grace_window`: artwork loaded at `t = 0`, id
change at `t = 3` — more than 2 seconds later, so the artwork is cleared
(the spec's companion scenario, a change at `t = 1`, falls in the `else`
branch of the same equivalence). -/
theorem c4_artwork_grace_window_witness :
    ((∀ u ∈ (parse_item { now := 3 }
        ({ curTrackId := some "T1", lastArtworkLoadTime := 0 } : ParserState)
        ({ artwork_url := some "art" } : StoreData) (some (mperItem "VDI=" "T2"))).2.1,
        u.artwork_url = some none) ↔ (3 - 0 : Int) > 2) ∧
    (applyUpdates ({ artwork_url := some "art" } : StoreData)
        (parse_item { now := 3 }
          ({ curTrackId := some "T1", lastArtworkLoadTime := 0 } : ParserState)
          ({ artwork_url := some "art" } : StoreData)
          (some (mperItem "VDI=" "T2"))).2.1).artwork_url =
      (if (3 - 0 : Int) > 2 then none else some "art") :=
  c4_artwork_grace_window { now := 3 } { curTrackId := some "T1", lastArtworkLoadTime := 0 }
    { artwork_url := some "art" } "VDI=" "T2" "T2" (by decide) rfl (by decide) (by decide)
    (by decide)

theorem mden_store_track_id (ps : ParserState) (st : StoreData) :
    (applyUpdates st (mdenStep ps st).2.1).track_id = st.track_id := by
  simp only [mdenStep]
  by_cases ht : pyTruthy ps.pendTitle <;> by_cases ha : pyTruthy ps.pendArtist <;>
    by_cases hb : pyTruthy ps.pendAlbum <;>
    simp only [ht, ha, hb, if_true, if_false, ite_true, ite_false] <;>
    split <;> simp [applyUpdates, store_update] <;> split <;> simp [store_update]

/-- C3 as stated is false: the track-change branch of the `mper` handler
replaces `current` and resets the artwork dedup name but never touches
`pending_metadata` or the bundle flag, so a title accumulated for the old
track is still pending after the change (`T1 → T2`) and the following
bundle-end applies it to the snapshot under the new id. -/
theorem c3_counterexample :
    (processTrace {} [({}, some (mperItem "VDE=" "T1")), ({}, some mdstItem),
        ({}, some (minmItem "QQ==" "A")),
        ({}, some (mperItem "VDI=" "T2"))]).1.ps.pendTitle = some "A" ∧
    (processTrace {} [({}, some (mperItem "VDE=" "T1")), ({}, some mdstItem),
        ({}, some (minmItem "QQ==" "A")),
        ({}, some (mperItem "VDI=" "T2"))]).1.ps.inMetadataBundle = true ∧
    (processItem {} (processTrace {} [({}, some (mperItem "VDE=" "T1")), ({}, some mdstItem),
        ({}, some (minmItem "QQ==" "A")),
        ({}, some (mperItem "VDI=" "T2"))]).1 (some mdenItem)).1.st.title = some "A" ∧
    (processItem {} (processTrace {} [({}, some (mperItem "VDE=" "T1")), ({}, some mdstItem),
        ({}, some (minmItem "QQ==" "A")),
        ({}, some (mperItem "VDI=" "T2"))]).1 (some mdenItem)).1.st.track_id
      = some "T2" := by decide

/-- C3 amended: a track change does NOT discard the unflushed pending fields —
it leaves `pending_metadata` and the bundle flag exactly as they were, so a
subsequent bundle-end merges any value accumulated before the change into the
snapshot under the new id (shown here for the title field). -/
theorem c3_pending_fields_survive_track_change (env env2 : Env) (ps ps1 : ParserState)
    (st st1 : StoreData) (b64 d t : String)
    (hb : b64 ≠ "") (ht : pyStrip d = t) (ht0 : t ≠ "")
    (hcur : pyTruthy ps.curTrackId = true) (hne : ps.curTrackId ≠ some t)
    (hps1 : ps1 = (parse_item env ps st (some (mperItem b64 d))).1)
    (hst1 : st1 = applyUpdates st (parse_item env ps st (some (mperItem b64 d))).2.1) :
    ps1.pendTitle = ps.pendTitle ∧ ps1.pendArtist = ps.pendArtist ∧
    ps1.pendAlbum = ps.pendAlbum ∧ ps1.inMetadataBundle = ps.inMetadataBundle ∧
    (pyTruthy ps.pendTitle = true →
      (applyUpdates st1 (parse_item env2 ps1 st1 (some mdenItem)).2.1).title = ps.pendTitle ∧
      (applyUpdates st1 (parse_item env2 ps1 st1 (some mdenItem)).2.1).track_id = some t) := by
  have hb' : (b64 == "") = false := by simpa using hb
  rw [parse_mper env ps st b64 d hb', mperStep_change env ps d t ht ht0 hcur hne] at hps1 hst1
  have hst1' : st1.track_id = some t := by
    rw [hst1]
    by_cases hg : env.now - ps.lastArtworkLoadTime > 2 <;>
      simp [hg, applyUpdates, store_update]
  subst hps1
  refine ⟨rfl, rfl, rfl, rfl, fun hp => ?_⟩
  rw [parse_mden]
  constructor
  · exact mden_store_title _ _ hp
  · rw [mden_store_track_id]
    exact hst1'

/-- Concrete pre-change parser state for the `c3` witness: mid-bundle, title
`"A"` pending, current id `T1`. -/
def c3ps : ParserState :=
  { curTrackId := some "T1", pendTitle := some "A", inMetadataBundle := true }

/-- Parser state after the `T1 -> T2` change in the `c3` witness. -/
def c3ps1 : ParserState := (parse_item {} c3ps {} (some (mperItem "VDI=" "T2"))).1

/-- Store state after the `T1 -> T2` change in the `c3` witness. -/
def c3st1 : StoreData :=
  applyUpdates {} (parse_item {} c3ps {} (some (mperItem "VDI=" "T2"))).2.1

/-- Witness for `c3_pending_fields_survive_track_change`: a pending title
`"A"` survives the `T1 -> T2` change and is written to the store, under id
`T2`, by the following bundle-end. -/
theorem c3_pending_fields_survive_track_change_witness :
    c3ps1.pendTitle = c3ps.pendTitle ∧ c3ps1.pendArtist = c3ps.pendArtist ∧
    c3ps1.pendAlbum = c3ps.pendAlbum ∧ c3ps1.inMetadataBundle = c3ps.inMetadataBundle ∧
    (pyTruthy c3ps.pendTitle = true →
      (applyUpdates c3st1 (parse_item {} c3ps1 c3st1 (some mdenItem)).2.1).title
        = c3ps.pendTitle ∧
      (applyUpdates c3st1 (parse_item {} c3ps1 c3st1 (some mdenItem)).2.1).track_id
        = some "T2") :=
  c3_pending_fields_survive_track_change {} {} c3ps c3ps1 {} c3st1 "VDI=" "T2" "T2"
    (by decide) rfl (by decide) (by decide) (by decide) rfl rfl

/-- C8 amended (the no-track-change case, which is what the code implements):
if the newest cover file in the cache carries the same filename as the one
recorded at the last artwork load, the artwork-end handler performs no file
read, records nothing new, issues no update call and emits no notification. -/
theorem c8_artwork_dedup_unchanged_file (env : Env) (ps : ParserState) (st : StoreData)
    (nf : CacheFile) (hn : newestFile (coverFiles env.cacheFiles) = some nf)
    (hl : ps.lastLoadedCacheFile = some nf.name) :
    parse_item env ps st (some pcenItem) = ({ ps with inArtworkBundle := false }, [], false) ∧
    (processItem env ⟨ps, st⟩ (some pcenItem)).2 = [] := by
  have hp := parse_pcen env ps st
  have hload : load_artwork_from_cache { ps with inArtworkBundle := false } env.cacheFiles
      = none := by
    simp [load_artwork_from_cache, hn, hl]
  have hstep : pcenStep env ps = ({ ps with inArtworkBundle := false }, [], false) := by
    simp [pcenStep, hload]
  refine ⟨hp.trans hstep, ?_⟩
  simp [processItem, hp, hstep]

/-- Witness for `c8_artwork_dedup_unchanged_file`: the newest (and only)
cache file was already loaded, so a further artwork-end does nothing. -/
theorem c8_artwork_dedup_unchanged_file_witness :
    parse_item { now := 7, cacheFiles := [{ name := "cover-9.jpg", mtime := 5, data := [9] }] }
        ({ lastLoadedCacheFile := some "cover-9.jpg" } : ParserState) {} (some pcenItem) =
      ({ lastLoadedCacheFile := some "cover-9.jpg", inArtworkBundle := false }, [], false) ∧
    (processItem { now := 7, cacheFiles := [{ name := "cover-9.jpg", mtime := 5, data := [9] }] }
        ⟨{ lastLoadedCacheFile := some "cover-9.jpg" }, {}⟩ (some pcenItem)).2 = [] :=
  c8_artwork_dedup_unchanged_file _ _ {} { name := "cover-9.jpg", mtime := 5, data := [9] }
    (by decide) rfl

/-- The single cache file used by the `c8` counterexample. -/
def c8file : CacheFile := { name := "cover-1a.jpg", mtime := 5, data := [1, 2, 3] }

/-- Counterexample trace for C8: load artwork for `T1` at `t = 0`, change the
track at `t = 10`, set a fresh title at `t = 11`. -/
def c8trace : List (Env × Option XmlItem) :=
  [({ now := 0, cacheFiles := [c8file] }, some (mperItem "VDE=" "T1")),
   ({ now := 0, cacheFiles := [c8file] }, some pcenItem),
   ({ now := 10, cacheFiles := [c8file] }, some (mperItem "VDI=" "T2")),
   ({ now := 11, cacheFiles := [c8file] }, some (minmItem "UzI=" "S2"))]

/-- System state after the `c8` counterexample trace. -/
def c8s : SysState := (processTrace {} c8trace).1

/-- C8's "including resolutions after an intervening track change" part is
false: the artwork file `cover-1a.jpg` was loaded and recorded, but the track
change deliberately resets `last_loaded_cache_file` to `None`, so the next
artwork-end re-reads the *unchanged* file, issues an update call and emits a
notification. -/
theorem c8_counterexample :
    (processTrace {} (c8trace.take 2)).1.ps.lastLoadedCacheFile = some "cover-1a.jpg" ∧
    c8s.ps.lastLoadedCacheFile = none ∧
    (parse_item { now := 12, cacheFiles := [c8file] } c8s.ps c8s.st (some pcenItem)).2.1 ≠ [] ∧
    (processItem { now := 12, cacheFiles := [c8file] } c8s (some pcenItem)).2 ≠ [] := by decide

/-- C9: a malformed record — unparseable XML (`none`), a missing `<code>`
element, or invalid hex in the type/code fields (exactly the inputs
`isMalformed` accepts) — decodes to no event: `parse_item` (a total function,
so no exception escapes it) returns `False` with no state change and no
update call, and deleting such a record from any position of a trace changes
neither the final state nor the emitted notifications, so surrounding
well-formed records are processed unaffected. -/
theorem c9_malformed_record_yields_no_event :
    (∀ (env : Env) (ps : ParserState) (st : StoreData) (item : Option XmlItem),
      isMalformed item = true → parse_item env ps st item = (ps, [], false)) ∧
    (∀ (s : SysState) (pre post : List (Env × Option XmlItem)) (env : Env)
      (item : Option XmlItem), isMalformed item = true →
      processTrace s (pre ++ (env, item) :: post) = processTrace s (pre ++ post)) := by
  have h1 : ∀ (env : Env) (ps : ParserState) (st : StoreData) (item : Option XmlItem),
      isMalformed item = true → parse_item env ps st item = (ps, [], false) := by
    intro env ps st item h
    cases item with
    | none => rfl
    | some it =>
        simp only [isMalformed, Option.isNone_iff_eq_none] at h
        simp [parse_item, h]
  refine ⟨h1, ?_⟩
  intro s pre post env item h
  have hp : ∀ s' : SysState, processItem env s' item = (s', []) := by
    intro s'
    simp [processItem, h1 env s'.ps s'.st item h, applyUpdates]
  induction pre generalizing s with
  | nil =>
      simp only [List.nil_append, processTrace, hp]
      try simp
  | cons hd tl ih =>
      obtain ⟨e1, i1⟩ := hd
      simp only [List.cons_append, processTrace, List.append_eq]
      rw [ih]

/-- Witness for `c9_malformed_record_yields_no_event`: a record whose code
hex is invalid (`"6d64zz"`), interleaved between two well-formed records, has
no effect on the run. -/
theorem c9_malformed_record_yields_no_event_witness :
    processTrace {} ([(({} : Env), some (minmItem "Qg==" "B"))] ++
        (({} : Env), some ({ codeText := some "6d64zz" } : XmlItem)) ::
          [(({} : Env), some mdstItem)]) =
      processTrace {} ([(({} : Env), some (minmItem "Qg==" "B"))] ++
        [(({} : Env), some mdstItem)]) :=
  c9_malformed_record_yields_no_event.2 {} [(({} : Env), some (minmItem "Qg==" "B"))]
    [(({} : Env), some mdstItem)] {} (some { codeText := some "6d64zz" }) (by decide)
